/-
Verification of the region-dashboard materialized-view refresh engine
(src/db/materialized_views.py) against its specification.

Shallow embedding conventions:
  * Dates are modelled as `Int` (whole days; the code compares dates at
    day granularity only: CURDATE(), .dt.date, Timestamp.normalize()).
  * The reference date (`CURDATE()` / `pd.Timestamp.today()`) is passed
    explicitly as `asOf : Int`; both refresh paths receive the same value.
  * Nullable SQL/CSV fields are `Option _`; rainfall amounts are `Rat`.
  * A pandas `groupby(k).agg(...)` followed by a left `merge` on `k` is
    embedded as a per-key lookup: the grouped right-hand side has unique
    keys, so the merge maps each left row to the aggregate of the rows
    whose key equals the left row's key, or to null when that group is
    empty.  The SQL `LEFT JOIN (SELECT ... GROUP BY k)` subqueries are
    embedded the same way.  `groupby` with the default `dropna=True`
    never forms a null-key group, and a SQL join condition `k = name`
    is false when `k` is NULL; in both cases a lookup at key
    `some name` reduces to filtering on `key = some name`.
-/
import Mathlib

/-! ## Base entities (§3 of the spec; column lists from the module docstring) -/

/-- A row of `affected_regions`.  `region_name` is the data model's join
key (unique, text); `region_id` joins `distribution_log`. -/
structure RegionRow where
  region_id : Option Int
  region_name : String
  population : Option Int
  risk_level : Option String
deriving Repr, DecidableEq

/-- A row of `alerts` (the columns the refresh reads). -/
structure AlertRow where
  region : Option String
  severity : Option String
  expiry_date : Option Int
deriving Repr, DecidableEq

/-- A row of `resources` (the columns the refresh reads). -/
structure ResourceRow where
  location : Option String
  quantity_available : Option Int
deriving Repr, DecidableEq

/-- A row of `rainfall_data` (the columns the refresh reads). -/
structure RainRow where
  region : Option String
  date : Option Int
  rainfall_mm : Option Rat
deriving Repr, DecidableEq

/-- A row of `distribution_log` (the columns the refresh reads). -/
structure DistRow where
  region_id : Option Int
  quantity_sent : Option Int
  date_distributed : Option Int
deriving Repr, DecidableEq

/-- The five base relations (the Base Store's readable contents, or the
parsed contents of the five CSV files). -/
structure Database where
  affected_regions : List RegionRow
  alerts : List AlertRow
  resources : List ResourceRow
  rainfall_data : List RainRow
  distribution_log : List DistRow
deriving Repr, DecidableEq

/-- One computed summary row, named after the source's `MVRow` dataclass
(src/db/materialized_views.py lines 48-59).  `last_refreshed` is not a
field: it is stamped `NOW()` at write time and every claim compares rows
modulo that column. -/
structure MVRow where
  region_name : String
  population : Option Int
  risk_level : Option String
  active_alerts_count : Nat
  highest_active_severity : Option String
  total_resources_available : Int
  distributions_last_7d : Int
  latest_rainfall_mm : Option Rat
  avg_rainfall_7d : Option Rat
deriving Repr, DecidableEq

/-! ## Shared severity mappings

Both paths carry the same two literal mappings: the CSV path's
`sev_rank = {"Low": 1, ...}` dict (with `.map(...).fillna(0)`) matches
the SQL `CASE al.severity WHEN 'Critical' THEN 4 ... ELSE 0 END`, and the
CSV `rank_to_label = {4: "Critical", ...}` dict (map to NaN on a missing
key) matches the SQL `CASE COALESCE(a.max_sev_rank, 0) WHEN 4 THEN
'Critical' ... ELSE NULL END`. -/

/-- Severity label to rank; unknown or missing severity ranks 0. -/
def sev_rank_of (s : Option String) : Nat :=
  match s with
  | some "Low" => 1
  | some "Moderate" => 2
  | some "High" => 3
  | some "Critical" => 4
  | _ => 0

/-- Rank back to label; rank 0 (or anything outside 1..4) maps to null. -/
def rank_to_label (n : Nat) : Option String :=
  match n with
  | 4 => some "Critical"
  | 3 => some "High"
  | 2 => some "Moderate"
  | 1 => some "Low"
  | _ => none

/-! ## Flat-file path: the pandas computation in `refresh_mv_from_csv`
(src/db/materialized_views.py lines 219-287). -/

/-- Lines 222-224: parse `expiry_date` and keep rows with
`expiry_date >= today`; an unparseable/missing date (NaT) compares
false and is dropped. -/
def csv_active_alerts (alerts : List AlertRow) (asOf : Int) : List AlertRow :=
  alerts.filter fun a =>
    match a.expiry_date with
    | some d => decide (asOf ≤ d)
    | none => false

/-- Lines 226-230: group active alerts by `region`, take row count and max
severity rank; the merge on line 264 looks this up by `region_name`.
Returns `none` when the region has no active-alert group. -/
def csv_alerts_agg (alerts : List AlertRow) (asOf : Int) (name : String) :
    Option (Nat × Nat) :=
  let g := (csv_active_alerts alerts asOf).filter fun a => decide (a.region = some name)
  if g.isEmpty then none
  else some (g.length, (g.map fun a => sev_rank_of a.severity).foldl max 0)

/-- Line 283 + 287: `active_alerts_count` is the looked-up count with
`fillna(0)`. -/
def csv_active_count (alerts : List AlertRow) (asOf : Int) (name : String) : Nat :=
  ((csv_alerts_agg alerts asOf name).map Prod.fst).getD 0

/-- Lines 270-271: `mv["max_sev_rank"].map(rank_to_label)` — a missing
group (NaN rank) maps to NaN. -/
def csv_highest_severity (alerts : List AlertRow) (asOf : Int) (name : String) :
    Option String :=
  match (csv_alerts_agg alerts asOf name).map Prod.snd with
  | none => none
  | some r => rank_to_label r

/-- Lines 235-237: group resources by `location` and sum
`quantity_available` (pandas sum skips NaN and yields 0 on an all-NaN
group); the merge on line 265 looks this up by `region_name`. -/
def csv_res_agg (resources : List ResourceRow) (name : String) : Option Int :=
  let g := resources.filter fun r => decide (r.location = some name)
  if g.isEmpty then none
  else some (g.filterMap (fun r => r.quantity_available)).sum

/-- Line 284 + 287: `total_resources_available` with `fillna(0)`. -/
def csv_total_resources (resources : List ResourceRow) (name : String) : Int :=
  (csv_res_agg resources name).getD 0

/-- Lines 243-245: keep distribution rows with
`date_distributed >= today - 7 days` (NaT compares false). -/
def csv_dist_window (dist : List DistRow) (asOf : Int) : List DistRow :=
  dist.filter fun e =>
    match e.date_distributed with
    | some d => decide (asOf - 7 ≤ d)
    | none => false

/-- Line 246: group the windowed rows by `region_id`, sum `quantity_sent`;
the merge on line 266 looks this up by the region's `region_id`
(`groupby` drops the null-key group, so a null id finds no group). -/
def csv_dist_agg (dist : List DistRow) (asOf : Int) (rid : Option Int) : Option Int :=
  match rid with
  | none => none
  | some i =>
    let g := (csv_dist_window dist asOf).filter fun e => decide (e.region_id = some i)
    if g.isEmpty then none
    else some (g.filterMap (fun e => e.quantity_sent)).sum

/-- Line 285 + 287: `distributions_last_7d` with `fillna(0)`. -/
def csv_dist_7d (dist : List DistRow) (asOf : Int) (rid : Option Int) : Int :=
  (csv_dist_agg dist asOf rid).getD 0

/-- `dateLE a b`: the order used when sorting by date with NaT placed
after every real date in a descending sort (`na_position="last"`, and SQL
`ORDER BY date DESC` puts NULLs last): `none` is the bottom element. -/
def dateLE (a b : Option Int) : Bool :=
  match a, b with
  | none, _ => true
  | some _, none => false
  | some x, some y => decide (x ≤ y)

/-- The first row (in original order) whose date is maximal under
`dateLE`.  Embeds "sort by date descending, take the first row": the
sources leave the order among equal maximal dates unspecified, so the
embedding fixes first-in-original-order as the deterministic tie-break
for both paths. -/
def firstMaxByDate (rows : List RainRow) : Option RainRow :=
  rows.foldl
    (fun acc r =>
      match acc with
      | none => some r
      | some m => if dateLE m.date r.date ∧ ¬ dateLE r.date m.date then some r else acc)
    none

/-- Lines 253-254: per region, the `rainfall_mm` of the first row after
sorting by date descending (`drop_duplicates` keeps that first row); the
value itself may be NaN.  `none` when the region has no rainfall rows at
all (then it is absent from `latest` and the merge yields NaN). -/
def csv_latest_mm (rain : List RainRow) (name : String) : Option Rat :=
  match firstMaxByDate (rain.filter fun r => decide (r.region = some name)) with
  | none => none
  | some r => r.rainfall_mm

/-- Lines 255-256: rainfall rows with `date >= today - 7 days`
(NaT compares false). -/
def csv_rain_window (rain : List RainRow) (asOf : Int) : List RainRow :=
  rain.filter fun r =>
    match r.date with
    | some d => decide (asOf - 7 ≤ d)
    | none => false

/-- Lines 257-258: mean `rainfall_mm` of the in-window rows per region
(pandas mean skips NaN and is NaN when no numeric value remains), merged
onto `latest` and then onto the regions.  `none` exactly when no
in-window row of this region carries a numeric `rainfall_mm`. -/
def csv_avg_7d (rain : List RainRow) (asOf : Int) (name : String) : Option Rat :=
  let vals := ((csv_rain_window rain asOf).filter fun r =>
    decide (r.region = some name)).filterMap fun r => r.rainfall_mm
  if vals.isEmpty then none
  else some (vals.sum / (vals.length : Rat))

/-- One output row of the flat-file path for one `affected_regions` row:
the merges on lines 263-267 anchored left on the region, the severity
relabelling on line 271, the renames on lines 274-280 and the zero
defaults on lines 282-287. -/
def csvSummaryRow (d : Database) (asOf : Int) (ar : RegionRow) : MVRow :=
  { region_name := ar.region_name
    population := ar.population
    risk_level := ar.risk_level
    active_alerts_count := csv_active_count d.alerts asOf ar.region_name
    highest_active_severity := csv_highest_severity d.alerts asOf ar.region_name
    total_resources_available := csv_total_resources d.resources ar.region_name
    distributions_last_7d := csv_dist_7d d.distribution_log asOf ar.region_id
    latest_rainfall_mm := csv_latest_mm d.rainfall_data ar.region_name
    avg_rainfall_7d := csv_avg_7d d.rainfall_data asOf ar.region_name }

/-- The row set computed by `refresh_mv_from_csv` from parsed file
contents: one row per `affected_regions` row, in order (a left merge
with grouped, key-unique right sides preserves the left row set). -/
def refresh_mv_from_csv_rows (d : Database) (asOf : Int) : List MVRow :=
  d.affected_regions.map (csvSummaryRow d asOf)

/-! ## Live-store path: the SQL SELECT in `refresh_mv_from_db`
(src/db/materialized_views.py lines 94-173).  Each `LEFT JOIN (SELECT
... GROUP BY k) t ON t.k = ar.k` is embedded as a per-region lookup
returning `none` when no group matches (a NULL join key on either side
matches nothing in SQL). -/

/-- Lines 137-139: `FROM alerts WHERE expiry_date >= CURDATE()`; a NULL
expiry date fails the comparison. -/
def db_active_alerts (alerts : List AlertRow) (asOf : Int) : List AlertRow :=
  alerts.filter fun al =>
    match al.expiry_date with
    | some d => decide (asOf ≤ d)
    | none => false

/-- Lines 124-140: the `a` subquery — per region, `COUNT(*)` and
`MAX(CASE severity ... ELSE 0 END)` over active alerts, joined on
`a.region_name = ar.region_name`. -/
def db_alerts_agg (alerts : List AlertRow) (asOf : Int) (name : String) :
    Option (Nat × Nat) :=
  let g := (db_active_alerts alerts asOf).filter fun al => decide (al.region = some name)
  if g.isEmpty then none
  else some (g.length, (g.map fun al => sev_rank_of al.severity).foldl max 0)

/-- Line 106: `COALESCE(a.alerts_active, 0)`. -/
def db_active_count (alerts : List AlertRow) (asOf : Int) (name : String) : Nat :=
  ((db_alerts_agg alerts asOf name).map Prod.fst).getD 0

/-- Lines 108-114: `CASE COALESCE(a.max_sev_rank, 0) WHEN 4 THEN
'Critical' ... ELSE NULL END`. -/
def db_highest_severity (alerts : List AlertRow) (asOf : Int) (name : String) :
    Option String :=
  rank_to_label (((db_alerts_agg alerts asOf name).map Prod.snd).getD 0)

/-- Lines 141-145: the `r` subquery — `SUM(quantity_available)` grouped
by `location`.  SQL `SUM` skips NULLs and is itself NULL on an all-NULL
group, hence the nested option. -/
def db_res_agg (resources : List ResourceRow) (name : String) : Option (Option Int) :=
  let g := resources.filter fun r => decide (r.location = some name)
  if g.isEmpty then none
  else
    let vals := g.filterMap fun r => r.quantity_available
    some (if vals.isEmpty then none else some vals.sum)

/-- Line 116: `COALESCE(r.total_qty, 0)` — 0 both when no group matches
and when the group's sum is NULL. -/
def db_total_resources (resources : List ResourceRow) (name : String) : Int :=
  (((db_res_agg resources name).map (fun s => s.getD 0)).getD 0)

/-- Lines 146-151: the `d` subquery — distribution rows with
`date_distributed >= CURDATE() - INTERVAL 7 DAY` (NULL fails), grouped
by `region_id` with `SUM(quantity_sent)`, joined on
`d.region_id = ar.region_id` (a NULL `ar.region_id` matches no group). -/
def db_dist_agg (dist : List DistRow) (asOf : Int) (rid : Option Int) :
    Option (Option Int) :=
  match rid with
  | none => none
  | some i =>
    let g := (dist.filter fun e =>
      match e.date_distributed with
      | some d => decide (asOf - 7 ≤ d)
      | none => false).filter fun e => decide (e.region_id = some i)
    if g.isEmpty then none
    else
      let vals := g.filterMap fun e => e.quantity_sent
      some (if vals.isEmpty then none else some vals.sum)

/-- Line 118: `COALESCE(d.qty_last_7d, 0)`. -/
def db_dist_7d (dist : List DistRow) (asOf : Int) (rid : Option Int) : Int :=
  (((db_dist_agg dist asOf rid).map (fun s => s.getD 0)).getD 0)

/-- Lines 157-164: the `x` subquery — per region (over ALL rainfall
rows), `SUBSTRING_INDEX(GROUP_CONCAT(rainfall_mm ORDER BY date DESC),
',', 1) + 0.0`.  `GROUP_CONCAT` skips NULL values, so the result is the
`rainfall_mm` of the first row, by descending date (NULL dates last,
ties by the shared first-in-original-order tie-break), among the rows
whose `rainfall_mm` is not NULL; it is NULL when every value is NULL.
`none` in the outer option when the region has no rainfall rows at all
(then `x` has no row and the join on line 172 yields NULL). -/
def db_latest_mm (rain : List RainRow) (name : String) : Option Rat :=
  let g := rain.filter fun r => decide (r.region = some name)
  if g.isEmpty then none
  else
    match firstMaxByDate (g.filter fun r => r.rainfall_mm.isSome) with
    | none => none
    | some r => r.rainfall_mm

/-- Lines 165-171: the `y` subquery — `AVG(rainfall_mm)` over rows with
`date >= CURDATE() - INTERVAL 7 DAY`, grouped by region, left-joined
into `x` and then onto the regions.  SQL `AVG` skips NULLs and is NULL
on an all-NULL group. -/
def db_avg_7d (rain : List RainRow) (asOf : Int) (name : String) : Option Rat :=
  let g := rain.filter fun r => decide (r.region = some name)
  if g.isEmpty then none
  else
    let vals := ((rain.filter fun r =>
      match r.date with
      | some d => decide (asOf - 7 ≤ d)
      | none => false).filter fun r => decide (r.region = some name)).filterMap
        fun r => r.rainfall_mm
    if vals.isEmpty then none else some (vals.sum / (vals.length : Rat))

/-- One row of the `INSERT ... SELECT` per `affected_regions` row
(lines 101-122). -/
def dbSummaryRow (d : Database) (asOf : Int) (ar : RegionRow) : MVRow :=
  { region_name := ar.region_name
    population := ar.population
    risk_level := ar.risk_level
    active_alerts_count := db_active_count d.alerts asOf ar.region_name
    highest_active_severity := db_highest_severity d.alerts asOf ar.region_name
    total_resources_available := db_total_resources d.resources ar.region_name
    distributions_last_7d := db_dist_7d d.distribution_log asOf ar.region_id
    latest_rainfall_mm := db_latest_mm d.rainfall_data ar.region_name
    avg_rainfall_7d := db_avg_7d d.rainfall_data asOf ar.region_name }

/-- The row set the live-store path inserts into the summary table: the
`SELECT` is anchored `FROM affected_regions ar` with only left joins, so
it yields one row per `affected_regions` row. -/
def refresh_mv_from_db_rows (d : Database) (asOf : Int) : List MVRow :=
  d.affected_regions.map (dbSummaryRow d asOf)

/-! ## Refresh orchestration (src/db/materialized_views.py lines 61-91
and 289-329)

The target store is the summary table's observable state; a connection
is modelled by which of the three statements it can execute (a failed
`execute_update` returns False and leaves the table as it was). -/

/-- The summary table's state in the target store. -/
structure MVStore where
  table_created : Bool
  table_rows : List MVRow
deriving Repr, DecidableEq

/-- Which statements the connection can execute successfully. -/
structure DbConn where
  create_ok : Bool
  truncate_ok : Bool
  insert_ok : Bool
deriving Repr, DecidableEq

/-- `create_mv_table` (lines 61-77): `CREATE TABLE IF NOT EXISTS`; on
success the table exists and its rows are untouched, on failure nothing
changes.  Returns the `execute_update` boolean. -/
def create_mv_table (c : DbConn) (st : MVStore) : Bool × MVStore :=
  if c.create_ok then (true, { st with table_created := true }) else (false, st)

/-- `TRUNCATE TABLE mv_region_dashboard` (lines 90 and 297): on success
all rows are removed. -/
def truncate_mv (c : DbConn) (st : MVStore) : Bool × MVStore :=
  if c.truncate_ok then (true, { st with table_rows := [] }) else (false, st)

/-- The bulk `INSERT` (line 175's INSERT..SELECT, or lines 300-327's
executemany with its row-by-row fallback): on success the computed rows
are appended. -/
def insert_mv (c : DbConn) (st : MVStore) (rows : List MVRow) : Bool × MVStore :=
  if c.insert_ok then (true, { st with table_rows := st.table_rows ++ rows }) else (false, st)

/-- `refresh_mv_from_db` (lines 80-175): ensure the schema (abort on
failure), truncate (abort on failure), then insert the recomputed rows.
Returns the success boolean and the resulting store. -/
def refresh_mv_from_db (c : DbConn) (d : Database) (asOf : Int) (st : MVStore) :
    Bool × MVStore :=
  match create_mv_table c st with
  | (false, st1) => (false, st1)
  | (true, st1) =>
    match truncate_mv c st1 with
    | (false, st2) => (false, st2)
    | (true, st2) => insert_mv c st2 (refresh_mv_from_db_rows d asOf)

/-- The Flat-File Mirror directory: each file is present (with parsed
rows) or absent. -/
structure CsvDir where
  affected_regions : Option (List RegionRow)
  alerts : Option (List AlertRow)
  resources : Option (List ResourceRow)
  rainfall_data : Option (List RainRow)
  distribution_log : Option (List DistRow)
deriving Repr, DecidableEq

/-- `_read` (lines 193-197): an absent file yields an empty DataFrame,
which after the column normalisation on lines 208-217 behaves as an
empty row set for that entity. -/
def CsvDir.read (dir : CsvDir) : Database :=
  { affected_regions := dir.affected_regions.getD []
    alerts := dir.alerts.getD []
    resources := dir.resources.getD []
    rainfall_data := dir.rainfall_data.getD []
    distribution_log := dir.distribution_log.getD [] }

/-- A directory in which all five files are present with the given
database's contents (a Flat-File Mirror of the same underlying facts). -/
def CsvDir.ofDatabase (d : Database) : CsvDir :=
  { affected_regions := some d.affected_regions
    alerts := some d.alerts
    resources := some d.resources
    rainfall_data := some d.rainfall_data
    distribution_log := some d.distribution_log }

/-- The head part of `os.path.dirname` (POSIX): everything up to and
including the last `/` of the path (empty when there is no `/`). -/
def os_path_head (p : String) : List Char :=
  (p.data.reverse.dropWhile (fun c => c ≠ '/')).reverse

/-- `os.path.dirname` (POSIX): the head part, with trailing slashes
stripped unless the head is entirely slashes. -/
def os_path_dirname (p : String) : String :=
  if os_path_head p ≠ [] ∧ ¬ ((os_path_head p).all (fun c => c = '/')) then
    String.mk (((os_path_head p).reverse.dropWhile (fun c => c = '/')).reverse)
  else
    String.mk (os_path_head p)

/-- `os.makedirs(path, exist_ok=True)` (line 291): raises
`FileNotFoundError` when `path` is the empty string; otherwise the
directories are created (or already exist) and it succeeds. -/
def os_makedirs (path : String) : Except String Unit :=
  if path = "" then Except.error "FileNotFoundError" else Except.ok ()

/-- `refresh_mv_from_csv` (lines 178-329): compute the summary rows from
the files, optionally write them as a CSV at `output_csv_path` (the
`os.makedirs(os.path.dirname(path))` call may raise, aborting the rest),
optionally persist into the target store — the results of
`create_mv_table` (line 296), of the truncate (line 297) and of the
insert (the try/except on lines 321-327 swallows failure) are all
ignored — and return the computed rows. -/
def refresh_mv_from_csv (dir : CsvDir) (output_csv_path : Option String)
    (conn : Option DbConn) (st : MVStore) (asOf : Int) :
    Except String (List MVRow) × MVStore :=
  let mv := refresh_mv_from_csv_rows dir.read asOf
  match output_csv_path with
  | some p =>
    match os_makedirs (os_path_dirname p) with
    | Except.error e => (Except.error e, st)
    | Except.ok _ =>
      match conn with
      | none => (Except.ok mv, st)
      | some c =>
        let st1 := (create_mv_table c st).2
        let st2 := (truncate_mv c st1).2
        let st3 := (insert_mv c st2 mv).2
        (Except.ok mv, st3)
  | none =>
    match conn with
    | none => (Except.ok mv, st)
    | some c =>
      let st1 := (create_mv_table c st).2
      let st2 := (truncate_mv c st1).2
      let st3 := (insert_mv c st2 mv).2
      (Except.ok mv, st3)

/-! ## Column lists (for the output-shape contract)

The DataFrame's columns are tracked symbolically: the merges on lines
263-267 append the non-key columns of their right side, line 271 appends
`highest_active_severity`, and lines 274-280 rename five columns. -/

/-- The rename mapping on lines 274-280. -/
def mv_rename (s : String) : String :=
  if s = "alerts_active" then "active_alerts_count"
  else if s = "total_qty" then "total_resources_available"
  else if s = "qty_last_7d" then "distributions_last_7d"
  else if s = "latest_mm" then "latest_rainfall_mm"
  else if s = "avg_7d" then "avg_rainfall_7d"
  else s

/-- The columns of the DataFrame returned by `refresh_mv_from_csv` (and
written verbatim by `to_csv` on line 292): the line-263 selection from
`affected_regions`, plus the non-key columns contributed by each merge,
plus the severity label, after the renames. -/
def mv_dataframe_columns : List String :=
  (["region_id", "region_name", "population", "risk_level"]
    ++ ["alerts_active", "max_sev_rank"]
    ++ ["total_qty"]
    ++ ["qty_last_7d"]
    ++ ["latest_mm", "avg_7d"]
    ++ ["highest_active_severity"]).map mv_rename

/-- The column list of the `INSERT INTO mv_region_dashboard` statements
(lines 95-99 and 301-303), which is also the DDL column order of
`create_mv_table` (lines 64-74). -/
def mv_table_columns : List String :=
  ["region_name", "population", "risk_level", "active_alerts_count",
   "highest_active_severity", "total_resources_available",
   "distributions_last_7d", "latest_rainfall_mm", "avg_rainfall_7d",
   "last_refreshed"]

/-- The RegionSummary attribute list of §3 of the specification, in the
spec's order (this definition follows the spec's words, to be compared
with the column lists derived from the code). -/
def spec_region_summary_columns : List String :=
  ["region_name", "population", "risk_level", "active_alerts_count",
   "highest_active_severity", "total_resources_available",
   "distributions_last_7d", "latest_rainfall_mm", "avg_rainfall_7d",
   "last_refreshed"]

/-! ## Per-column agreement between the two paths -/

/-- The two activity filters are the same comparison. -/
lemma db_active_alerts_eq_csv (alerts : List AlertRow) (asOf : Int) :
    db_active_alerts alerts asOf = csv_active_alerts alerts asOf := rfl

/-- The alert aggregations agree. -/
lemma db_alerts_agg_eq_csv (alerts : List AlertRow) (asOf : Int) (name : String) :
    db_alerts_agg alerts asOf name = csv_alerts_agg alerts asOf name := rfl

/-- The active-alert counts agree. -/
lemma db_active_count_eq_csv (alerts : List AlertRow) (asOf : Int) (name : String) :
    db_active_count alerts asOf name = csv_active_count alerts asOf name := rfl

/-- The severity labels agree: SQL relabels `COALESCE(rank, 0)` while
pandas maps a missing rank to NaN, and rank 0 relabels to NULL anyway. -/
lemma db_highest_severity_eq_csv (alerts : List AlertRow) (asOf : Int) (name : String) :
    db_highest_severity alerts asOf name = csv_highest_severity alerts asOf name := by
  unfold db_highest_severity csv_highest_severity
  rw [db_alerts_agg_eq_csv]
  cases csv_alerts_agg alerts asOf name <;> rfl

/-- `COALESCE`-collapsing: looking up a grouped SQL `SUM` (NULL on an
all-NULL group) and defaulting twice gives the same integer as pandas'
skip-NaN group sum defaulted once. -/
lemma coalesce_sum {α : Type} (g : List α) (f : α → Option Int) :
    (Option.map (fun s => Option.getD s 0)
      (if g.isEmpty then none
       else some (if (g.filterMap f).isEmpty then none else some (g.filterMap f).sum))).getD 0
    = (if g.isEmpty then none else some (g.filterMap f).sum).getD 0 := by
  cases g with
  | nil => rfl
  | cons x xs =>
    cases h : (x :: xs).filterMap f with
    | nil => simp [h]
    | cons y ys => simp [h]

/-- The resource totals agree: SQL's NULL sum on an all-NULL group and
pandas' 0 sum both land on 0 after the defaults. -/
lemma db_total_resources_eq_csv (resources : List ResourceRow) (name : String) :
    db_total_resources resources name = csv_total_resources resources name := by
  unfold db_total_resources csv_total_resources db_res_agg csv_res_agg
  exact coalesce_sum _ _

/-- The 7-day distribution totals agree. -/
lemma db_dist_7d_eq_csv (dist : List DistRow) (asOf : Int) (rid : Option Int) :
    db_dist_7d dist asOf rid = csv_dist_7d dist asOf rid := by
  unfold db_dist_7d csv_dist_7d db_dist_agg csv_dist_agg csv_dist_window
  cases rid with
  | none => rfl
  | some i => exact coalesce_sum _ _

/-- The 7-day rainfall averages agree: the SQL `x`-then-`y` join guard is
redundant because a region absent from the full table has no in-window
rows either. -/
lemma db_avg_7d_eq_csv (rain : List RainRow) (asOf : Int) (name : String) :
    db_avg_7d rain asOf name = csv_avg_7d rain asOf name := by
  unfold db_avg_7d csv_avg_7d csv_rain_window
  by_cases hg : (rain.filter fun r => decide (r.region = some name)).isEmpty
  · have hGnil : rain.filter (fun r => decide (r.region = some name)) = [] :=
      List.isEmpty_iff.mp hg
    have hsub : ((rain.filter fun r =>
        match r.date with
        | some d => decide (asOf - 7 ≤ d)
        | none => false).filter fun r => decide (r.region = some name)) = [] := by
      rw [List.filter_comm, hGnil]
      exact List.filter_nil _
    rw [if_pos hg, hsub]
    rfl
  · rw [if_neg hg]

/-- The latest-rainfall values agree when every reading carries a
numeric `rainfall_mm`: then `GROUP_CONCAT` skips nothing and both paths
pick the first maximal-date row. -/
lemma db_latest_mm_eq_csv (rain : List RainRow) (name : String)
    (h : ∀ r ∈ rain, r.rainfall_mm ≠ none) :
    db_latest_mm rain name = csv_latest_mm rain name := by
  unfold db_latest_mm csv_latest_mm
  have hfil : (rain.filter fun r => decide (r.region = some name)).filter
      (fun r => r.rainfall_mm.isSome) = rain.filter fun r => decide (r.region = some name) := by
    apply List.filter_eq_self.mpr
    intro r hr
    exact Option.isSome_iff_ne_none.mpr (h r (List.mem_filter.mp hr).1)
  by_cases hg : (rain.filter fun r => decide (r.region = some name)).isEmpty
  · rw [if_pos hg, List.isEmpty_iff.mp hg]
    rfl
  · rw [if_neg hg, hfil]

/-- Row-level agreement of the two paths, given all-numeric rainfall. -/
lemma dbSummaryRow_eq_csv (d : Database) (asOf : Int) (ar : RegionRow)
    (h : ∀ r ∈ d.rainfall_data, r.rainfall_mm ≠ none) :
    dbSummaryRow d asOf ar = csvSummaryRow d asOf ar := by
  unfold dbSummaryRow csvSummaryRow
  rw [db_active_count_eq_csv, db_highest_severity_eq_csv, db_total_resources_eq_csv,
      db_dist_7d_eq_csv, db_latest_mm_eq_csv _ _ h, db_avg_7d_eq_csv]

/-- Row-set agreement of the two computation paths. -/
lemma refresh_rows_eq (d : Database) (asOf : Int)
    (h : ∀ r ∈ d.rainfall_data, r.rainfall_mm ≠ none) :
    refresh_mv_from_db_rows d asOf = refresh_mv_from_csv_rows d asOf := by
  unfold refresh_mv_from_db_rows refresh_mv_from_csv_rows
  exact List.map_congr_left fun ar _ => dbSummaryRow_eq_csv d asOf ar h

/-- Reading a full mirror of a database recovers the database. -/
lemma read_ofDatabase (d : Database) : (CsvDir.ofDatabase d).read = d := rfl

/-- C1 (amended): given a Base Store and a Flat-File Mirror of the same
facts and the same reference date, `refresh_mv_from_db` and
`refresh_mv_from_csv` with a target store leave equal row sets in the
summary table (equal in every column; `last_refreshed` is outside the
row model), provided every RainfallReading carries a non-null
rainfall_mm.  Without that proviso the claim fails (see the
counterexample): on a region whose latest reading has a null
rainfall_mm, the SQL path's GROUP_CONCAT skips the null and backfills
the most recent non-null reading, while the pandas path reports null. -/
theorem c1_source_equivalence (d : Database) (asOf : Int) (c : DbConn)
    (st st' : MVStore)
    (hc : c.create_ok = true) (ht : c.truncate_ok = true) (hi : c.insert_ok = true)
    (h : ∀ r ∈ d.rainfall_data, r.rainfall_mm ≠ none) :
    (refresh_mv_from_db c d asOf st).2.table_rows =
      (refresh_mv_from_csv (CsvDir.ofDatabase d) none (some c) st' asOf).2.table_rows := by
  simp only [refresh_mv_from_db, refresh_mv_from_csv, create_mv_table, truncate_mv,
    insert_mv, hc, ht, hi, if_true, read_ofDatabase, List.nil_append]
  exact refresh_rows_eq d asOf h

/-- C1 counterexample: one region "R1" with two rainfall readings —
the later one (day −1) with a null rainfall_mm, the earlier one (day −2)
with 5 mm.  The live-store path reports latest_rainfall_mm = 5, the
flat-file path reports null, so the written row sets differ in a column
other than last_refreshed. -/
theorem c1_counterexample :
    (refresh_mv_from_db ⟨true, true, true⟩
        ⟨[⟨some 1, "R1", some 1000, some "High"⟩], [], [],
         [⟨some "R1", some (-1), none⟩, ⟨some "R1", some (-2), some 5⟩], []⟩
        0 ⟨true, []⟩).2.table_rows ≠
      (refresh_mv_from_csv
        (CsvDir.ofDatabase
          ⟨[⟨some 1, "R1", some 1000, some "High"⟩], [], [],
           [⟨some "R1", some (-1), none⟩, ⟨some "R1", some (-2), some 5⟩], []⟩)
        none (some ⟨true, true, true⟩) ⟨true, []⟩ 0).2.table_rows := by
  decide

/-- C1 witness: the amended equivalence applied to the §8 scenario
database (all rainfall readings numeric), a working connection and two
different prior store states. -/
theorem c1_source_equivalence_witness :
    (∀ r ∈ (⟨[⟨some 1, "R1", some 1000, some "High"⟩],
        [⟨some "R1", some "Critical", some 1⟩], [⟨some "R1", some 50⟩],
        [⟨some "R1", some 0, some 120⟩], [⟨some 1, some 30, some (-3)⟩]⟩ :
          Database).rainfall_data, r.rainfall_mm ≠ none) ∧
    (refresh_mv_from_db ⟨true, true, true⟩
        ⟨[⟨some 1, "R1", some 1000, some "High"⟩],
         [⟨some "R1", some "Critical", some 1⟩], [⟨some "R1", some 50⟩],
         [⟨some "R1", some 0, some 120⟩], [⟨some 1, some 30, some (-3)⟩]⟩
        0 ⟨true, []⟩).2.table_rows =
      (refresh_mv_from_csv
        (CsvDir.ofDatabase
          ⟨[⟨some 1, "R1", some 1000, some "High"⟩],
           [⟨some "R1", some "Critical", some 1⟩], [⟨some "R1", some 50⟩],
           [⟨some "R1", some 0, some 120⟩], [⟨some 1, some 30, some (-3)⟩]⟩)
        none (some ⟨true, true, true⟩)
        ⟨false, [⟨"Old", none, none, 3, none, 0, 0, none, none⟩]⟩ 0).2.table_rows :=
  ⟨by decide, c1_source_equivalence _ 0 _ _ _ rfl rfl rfl (by decide)⟩

/-- C2 counterexample: the regions file is absent (alerts data exists),
the target store holds one prior summary row, and the connection works.
The refresh does not fail — it returns an empty row set — and the prior
contents are truncated away rather than left untouched. -/
theorem c2_counterexample :
    (refresh_mv_from_csv ⟨none, some [⟨some "R1", some "High", some 3⟩], none, none, none⟩
        none (some ⟨true, true, true⟩)
        ⟨true, [⟨"Old", none, none, 0, none, 0, 0, none, none⟩]⟩ 0).1 =
      Except.ok [] ∧
    (refresh_mv_from_csv ⟨none, some [⟨some "R1", some "High", some 3⟩], none, none, none⟩
        none (some ⟨true, true, true⟩)
        ⟨true, [⟨"Old", none, none, 0, none, 0, 0, none, none⟩]⟩ 0).2.table_rows ≠
      [⟨"Old", none, none, 0, none, 0, 0, none, none⟩] := by
  constructor
  · rfl
  · decide

/-- C2 (amended): when the regions file is absent, the flat-file refresh
does not fail: `_read` degrades the Region set to empty, the refresh
succeeds with zero output rows, and — with a target store whose truncate
works — the prior summary contents are replaced by the empty row set. -/
theorem c2_missing_regions_empty_refresh (dir : CsvDir) (c : DbConn) (st : MVStore)
    (asOf : Int) (hreg : dir.affected_regions = none) (ht : c.truncate_ok = true) :
    (refresh_mv_from_csv dir none (some c) st asOf).1 = Except.ok [] ∧
    (refresh_mv_from_csv dir none (some c) st asOf).2.table_rows = [] := by
  by_cases hc : c.create_ok <;> by_cases hi : c.insert_ok <;>
    simp [refresh_mv_from_csv, refresh_mv_from_csv_rows, CsvDir.read, hreg,
      create_mv_table, truncate_mv, insert_mv, ht, hc, hi]

/-- C2 witness: the amended behaviour at a concrete directory with the
regions file absent, a working connection and one prior row. -/
theorem c2_missing_regions_empty_refresh_witness :
    ((⟨none, some [⟨some "R1", some "High", some 3⟩], none, none, none⟩ :
        CsvDir).affected_regions = none) ∧
    ((⟨true, true, true⟩ : DbConn).truncate_ok = true) ∧
    (refresh_mv_from_csv ⟨none, some [⟨some "R1", some "High", some 3⟩], none, none, none⟩
        none (some ⟨true, true, true⟩)
        ⟨true, [⟨"Old", none, none, 0, none, 0, 0, none, none⟩]⟩ 0).1 = Except.ok [] ∧
    (refresh_mv_from_csv ⟨none, some [⟨some "R1", some "High", some 3⟩], none, none, none⟩
        none (some ⟨true, true, true⟩)
        ⟨true, [⟨"Old", none, none, 0, none, 0, 0, none, none⟩]⟩ 0).2.table_rows = [] :=
  ⟨rfl, rfl,
    (c2_missing_regions_empty_refresh _ _ _ 0 rfl rfl).1,
    (c2_missing_regions_empty_refresh _ _ _ 0 rfl rfl).2⟩

/-- C3 counterexample: schema creation fails (`create_ok = false`) but
truncation would succeed; the flat-file path with a target store ignores
`create_mv_table`'s result and truncates anyway, so the prior row is NOT
left unchanged. -/
theorem c3_counterexample :
    (refresh_mv_from_csv ⟨some [], some [], some [], some [], some []⟩
        none (some ⟨false, true, true⟩)
        ⟨true, [⟨"Old", none, none, 0, none, 0, 0, none, none⟩]⟩ 0).2.table_rows ≠
      [⟨"Old", none, none, 0, none, 0, 0, none, none⟩] := by
  decide

/-- C3 (amended): on schema-creation failure the live-store path
(`refresh_mv_from_db`) aborts before truncating — the store is returned
untouched with a failure result — but the flat-file path with a target
store ignores the failed `create_mv_table` call and proceeds to truncate
and insert, fully replacing the prior contents. -/
theorem c3_schema_failure_abort (c : DbConn) (d : Database) (dir : CsvDir)
    (asOf : Int) (st st' : MVStore)
    (hc : c.create_ok = false) (ht : c.truncate_ok = true) (hi : c.insert_ok = true) :
    refresh_mv_from_db c d asOf st = (false, st) ∧
    (refresh_mv_from_csv dir none (some c) st' asOf).2.table_rows =
      refresh_mv_from_csv_rows dir.read asOf := by
  constructor
  · simp [refresh_mv_from_db, create_mv_table, hc]
  · simp [refresh_mv_from_csv, create_mv_table, truncate_mv, insert_mv, hc, ht, hi]

/-- C3 witness: the amended behaviour at a concrete failing-create
connection, one-region database and mirror, and a prior row in the
store. -/
theorem c3_schema_failure_abort_witness :
    ((⟨false, true, true⟩ : DbConn).create_ok = false) ∧
    refresh_mv_from_db ⟨false, true, true⟩
        ⟨[⟨some 1, "R1", none, none⟩], [], [], [], []⟩ 0
        ⟨true, [⟨"Old", none, none, 0, none, 0, 0, none, none⟩]⟩ =
      (false, ⟨true, [⟨"Old", none, none, 0, none, 0, 0, none, none⟩]⟩) ∧
    (refresh_mv_from_csv ⟨some [⟨some 1, "R1", none, none⟩], some [], some [], some [], some []⟩
        none (some ⟨false, true, true⟩)
        ⟨true, [⟨"Old", none, none, 0, none, 0, 0, none, none⟩]⟩ 0).2.table_rows =
      refresh_mv_from_csv_rows
        (⟨some [⟨some 1, "R1", none, none⟩], some [], some [], some [], some []⟩ :
          CsvDir).read 0 :=
  ⟨rfl,
    (c3_schema_failure_abort ⟨false, true, true⟩
      ⟨[⟨some 1, "R1", none, none⟩], [], [], [], []⟩
      ⟨some [⟨some 1, "R1", none, none⟩], some [], some [], some [], some []⟩ 0
      ⟨true, [⟨"Old", none, none, 0, none, 0, 0, none, none⟩]⟩
      ⟨true, [⟨"Old", none, none, 0, none, 0, 0, none, none⟩]⟩ rfl rfl rfl).1,
    (c3_schema_failure_abort ⟨false, true, true⟩
      ⟨[⟨some 1, "R1", none, none⟩], [], [], [], []⟩
      ⟨some [⟨some 1, "R1", none, none⟩], some [], some [], some [], some []⟩ 0
      ⟨true, [⟨"Old", none, none, 0, none, 0, 0, none, none⟩]⟩
      ⟨true, [⟨"Old", none, none, 0, none, 0, 0, none, none⟩]⟩ rfl rfl rfl).2⟩

/-- Every severity rank is at most 4. -/
lemma sev_rank_of_le_four (s : Option String) : sev_rank_of s ≤ 4 := by
  unfold sev_rank_of
  split <;> omega

/-- Ranks 1..4 relabel to a non-null severity. -/
lemma rank_to_label_ne_none (n : Nat) (h1 : 1 ≤ n) (h4 : n ≤ 4) :
    rank_to_label n ≠ none := by
  interval_cases n <;> simp [rank_to_label]

/-- A fold of `max` dominates its start value. -/
lemma start_le_foldl_max (l : List Nat) (a : Nat) : a ≤ l.foldl max a := by
  induction l generalizing a with
  | nil => exact le_refl a
  | cons x xs ih => exact le_trans (le_max_left a x) (ih (max a x))

/-- A fold of `max` dominates every list element. -/
lemma mem_le_foldl_max (l : List Nat) (a x : Nat) (hx : x ∈ l) : x ≤ l.foldl max a := by
  induction l generalizing a with
  | nil => cases hx
  | cons y ys ih =>
    rcases List.mem_cons.mp hx with h | h
    · subst h
      exact le_trans (le_max_right a x) (start_le_foldl_max ys (max a x))
    · exact ih (max a y) h

/-- A fold of `max` stays below a common bound. -/
lemma foldl_max_le (l : List Nat) (a b : Nat) (ha : a ≤ b) (hl : ∀ x ∈ l, x ≤ b) :
    l.foldl max a ≤ b := by
  induction l generalizing a with
  | nil => exact ha
  | cons x xs ih =>
    exact ih (max a x) (max_le ha (hl x (List.mem_cons_self x xs)))
      (fun y hy => hl y (List.mem_cons_of_mem x hy))

/-- C4 counterexample: one region "R1" with one active alert whose
severity "Extreme" is outside {Low, Moderate, High, Critical}: on both
paths the computed row has active_alerts_count = 1 yet
highest_active_severity = null, so the stated iff fails. -/
theorem c4_counterexample :
    ¬ (((csvSummaryRow ⟨[⟨some 1, "R1", none, none⟩],
          [⟨some "R1", some "Extreme", some 1⟩], [], [], []⟩ 0
          ⟨some 1, "R1", none, none⟩).highest_active_severity ≠ none ↔
        0 < (csvSummaryRow ⟨[⟨some 1, "R1", none, none⟩],
          [⟨some "R1", some "Extreme", some 1⟩], [], [], []⟩ 0
          ⟨some 1, "R1", none, none⟩).active_alerts_count)) ∧
    ¬ (((dbSummaryRow ⟨[⟨some 1, "R1", none, none⟩],
          [⟨some "R1", some "Extreme", some 1⟩], [], [], []⟩ 0
          ⟨some 1, "R1", none, none⟩).highest_active_severity ≠ none ↔
        0 < (dbSummaryRow ⟨[⟨some 1, "R1", none, none⟩],
          [⟨some "R1", some "Extreme", some 1⟩], [], [], []⟩ 0
          ⟨some 1, "R1", none, none⟩).active_alerts_count)) := by
  constructor <;> decide

/-- C4 (amended): on both computation paths, highest_active_severity is
non-null iff active_alerts_count > 0, provided every active alert of the
region carries a severity from {Low, Moderate, High, Critical} (rank
≥ 1).  With only out-of-vocabulary severities the count is positive
while the label stays null (see the counterexample). -/
theorem c4_severity_alert_link (d : Database) (asOf : Int) (ar : RegionRow)
    (hknown : ∀ a ∈ csv_active_alerts d.alerts asOf,
      a.region = some ar.region_name → 1 ≤ sev_rank_of a.severity) :
    ((csvSummaryRow d asOf ar).highest_active_severity ≠ none ↔
      0 < (csvSummaryRow d asOf ar).active_alerts_count) ∧
    ((dbSummaryRow d asOf ar).highest_active_severity ≠ none ↔
      0 < (dbSummaryRow d asOf ar).active_alerts_count) := by
  have hcsv : (csvSummaryRow d asOf ar).highest_active_severity ≠ none ↔
      0 < (csvSummaryRow d asOf ar).active_alerts_count := by
    show csv_highest_severity d.alerts asOf ar.region_name ≠ none ↔
      0 < csv_active_count d.alerts asOf ar.region_name
    unfold csv_highest_severity csv_active_count csv_alerts_agg
    cases hg : (csv_active_alerts d.alerts asOf).filter
        (fun a => decide (a.region = some ar.region_name)) with
    | nil => simp
    | cons x xs =>
      simp only [hg, List.isEmpty_cons, Bool.false_eq_true, if_false, Option.map_some,
        Option.getD_some, List.length_cons]
      constructor
      · intro _
        exact Nat.succ_pos xs.length
      · intro _
        have hxmem : x ∈ (csv_active_alerts d.alerts asOf).filter
            (fun a => decide (a.region = some ar.region_name)) := by
          rw [hg]; exact List.mem_cons_self x xs
        have hx := List.mem_filter.mp hxmem
        have hx1 : 1 ≤ sev_rank_of x.severity :=
          hknown x hx.1 (by simpa using hx.2)
        have hmax1 : 1 ≤ ((x :: xs).map fun a => sev_rank_of a.severity).foldl max 0 :=
          le_trans hx1 (mem_le_foldl_max _ 0 _ (by simp))
        have hmax4 : ((x :: xs).map fun a => sev_rank_of a.severity).foldl max 0 ≤ 4 := by
          apply foldl_max_le _ 0 4 (by omega)
          intro y hy
          rcases List.mem_map.mp hy with ⟨a, _, rfl⟩
          exact sev_rank_of_le_four a.severity
        exact rank_to_label_ne_none _ hmax1 hmax4
  refine ⟨hcsv, ?_⟩
  show db_highest_severity d.alerts asOf ar.region_name ≠ none ↔
    0 < db_active_count d.alerts asOf ar.region_name
  rw [db_highest_severity_eq_csv, db_active_count_eq_csv]
  exact hcsv

/-- C4 witness: the amended iff at the §8 severity scenario — one region
with active alerts of severities Low, Critical and High. -/
theorem c4_severity_alert_link_witness :
    (∀ a ∈ csv_active_alerts (⟨[⟨some 1, "R1", none, none⟩],
        [⟨some "R1", some "Low", some 2⟩, ⟨some "R1", some "Critical", some 2⟩,
         ⟨some "R1", some "High", some 2⟩], [], [], []⟩ : Database).alerts 0,
      a.region = some (⟨some 1, "R1", none, none⟩ : RegionRow).region_name →
        1 ≤ sev_rank_of a.severity) ∧
    (((csvSummaryRow ⟨[⟨some 1, "R1", none, none⟩],
        [⟨some "R1", some "Low", some 2⟩, ⟨some "R1", some "Critical", some 2⟩,
         ⟨some "R1", some "High", some 2⟩], [], [], []⟩ 0
        ⟨some 1, "R1", none, none⟩).highest_active_severity ≠ none ↔
      0 < (csvSummaryRow ⟨[⟨some 1, "R1", none, none⟩],
        [⟨some "R1", some "Low", some 2⟩, ⟨some "R1", some "Critical", some 2⟩,
         ⟨some "R1", some "High", some 2⟩], [], [], []⟩ 0
        ⟨some 1, "R1", none, none⟩).active_alerts_count) ∧
    ((dbSummaryRow ⟨[⟨some 1, "R1", none, none⟩],
        [⟨some "R1", some "Low", some 2⟩, ⟨some "R1", some "Critical", some 2⟩,
         ⟨some "R1", some "High", some 2⟩], [], [], []⟩ 0
        ⟨some 1, "R1", none, none⟩).highest_active_severity ≠ none ↔
      0 < (dbSummaryRow ⟨[⟨some 1, "R1", none, none⟩],
        [⟨some "R1", some "Low", some 2⟩, ⟨some "R1", some "Critical", some 2⟩,
         ⟨some "R1", some "High", some 2⟩], [], [], []⟩ 0
        ⟨some 1, "R1", none, none⟩).active_alerts_count)) :=
  ⟨by decide, c4_severity_alert_link _ 0 _ (by decide)⟩

/-- C5 (confirmed): both computation paths return one output row per
`affected_regions` row, carrying that row's region_name — so for a
Region set with unique region_names the output has exactly one row per
name, with no duplicates, no omissions, and no extra names, regardless
of whether the region has matching alerts, resources, distributions or
rainfall. -/
theorem c5_totality (d : Database) (asOf : Int)
    (h : (d.affected_regions.map fun ar => ar.region_name).Nodup) :
    (refresh_mv_from_db_rows d asOf).map (fun r => r.region_name) =
      d.affected_regions.map (fun ar => ar.region_name) ∧
    (refresh_mv_from_csv_rows d asOf).map (fun r => r.region_name) =
      d.affected_regions.map (fun ar => ar.region_name) ∧
    ((refresh_mv_from_db_rows d asOf).map fun r => r.region_name).Nodup ∧
    ((refresh_mv_from_csv_rows d asOf).map fun r => r.region_name).Nodup := by
  have hdb : (refresh_mv_from_db_rows d asOf).map (fun r => r.region_name) =
      d.affected_regions.map (fun ar => ar.region_name) := by
    unfold refresh_mv_from_db_rows
    rw [List.map_map]
    exact List.map_congr_left fun ar _ => rfl
  have hcsv : (refresh_mv_from_csv_rows d asOf).map (fun r => r.region_name) =
      d.affected_regions.map (fun ar => ar.region_name) := by
    unfold refresh_mv_from_csv_rows
    rw [List.map_map]
    exact List.map_congr_left fun ar _ => rfl
  exact ⟨hdb, hcsv, hdb ▸ h, hcsv ▸ h⟩

/-- C5 witness: totality on a two-region database with distinct names,
the second region having no matching rows anywhere. -/
theorem c5_totality_witness :
    ((⟨[⟨some 1, "R1", some 1000, some "High"⟩, ⟨some 2, "R2", none, none⟩],
        [⟨some "R1", some "Critical", some 1⟩], [⟨some "R1", some 50⟩],
        [⟨some "R1", some 0, some 120⟩], [⟨some 1, some 30, some (-3)⟩]⟩ :
        Database).affected_regions.map fun ar => ar.region_name).Nodup ∧
    (refresh_mv_from_csv_rows
        ⟨[⟨some 1, "R1", some 1000, some "High"⟩, ⟨some 2, "R2", none, none⟩],
         [⟨some "R1", some "Critical", some 1⟩], [⟨some "R1", some 50⟩],
         [⟨some "R1", some 0, some 120⟩], [⟨some 1, some 30, some (-3)⟩]⟩ 0).map
      (fun r => r.region_name) = ["R1", "R2"] :=
  ⟨by decide,
    by
      rw [(c5_totality
        ⟨[⟨some 1, "R1", some 1000, some "High"⟩, ⟨some 2, "R2", none, none⟩],
         [⟨some "R1", some "Critical", some 1⟩], [⟨some "R1", some 50⟩],
         [⟨some "R1", some 0, some 120⟩], [⟨some 1, some 30, some (-3)⟩]⟩ 0
        (by decide)).2.1]
      rfl⟩

/-- C6 (confirmed): the three numeric aggregates are integers (never
null) by construction on both paths, and for a region with no matching
Alert, Resource or DistributionEvent rows they are 0 while
highest_active_severity is null (not "Low"). -/
theorem c6_default_zero (d : Database) (asOf : Int) (ar : RegionRow)
    (halert : ∀ a ∈ d.alerts, a.region ≠ some ar.region_name)
    (hres : ∀ r ∈ d.resources, r.location ≠ some ar.region_name)
    (hdist : ∀ e ∈ d.distribution_log, ∀ i, ar.region_id = some i →
      e.region_id ≠ some i) :
    (csvSummaryRow d asOf ar).active_alerts_count = 0 ∧
    (csvSummaryRow d asOf ar).total_resources_available = 0 ∧
    (csvSummaryRow d asOf ar).distributions_last_7d = 0 ∧
    (csvSummaryRow d asOf ar).highest_active_severity = none ∧
    (dbSummaryRow d asOf ar).active_alerts_count = 0 ∧
    (dbSummaryRow d asOf ar).total_resources_available = 0 ∧
    (dbSummaryRow d asOf ar).distributions_last_7d = 0 ∧
    (dbSummaryRow d asOf ar).highest_active_severity = none := by
  have hA : (csv_active_alerts d.alerts asOf).filter
      (fun a => decide (a.region = some ar.region_name)) = [] := by
    apply List.filter_eq_nil_iff.mpr
    intro a ha
    simp [halert a (List.mem_filter.mp ha).1]
  have hR : d.resources.filter (fun r => decide (r.location = some ar.region_name)) = [] := by
    apply List.filter_eq_nil_iff.mpr
    intro r hr
    simp [hres r hr]
  have hD : csv_dist_agg d.distribution_log asOf ar.region_id = none := by
    unfold csv_dist_agg
    cases hid : ar.region_id with
    | none => rfl
    | some i =>
      have : (csv_dist_window d.distribution_log asOf).filter
          (fun e => decide (e.region_id = some i)) = [] := by
        apply List.filter_eq_nil_iff.mpr
        intro e he
        simp [hdist e (List.mem_filter.mp he).1 i hid]
      simp [this]
  refine ⟨?_, ?_, ?_, ?_, ?_, ?_, ?_, ?_⟩
  · show csv_active_count d.alerts asOf ar.region_name = 0
    simp [csv_active_count, csv_alerts_agg, hA]
  · show csv_total_resources d.resources ar.region_name = 0
    simp [csv_total_resources, csv_res_agg, hR]
  · show csv_dist_7d d.distribution_log asOf ar.region_id = 0
    simp [csv_dist_7d, hD]
  · show csv_highest_severity d.alerts asOf ar.region_name = none
    simp [csv_highest_severity, csv_alerts_agg, hA]
  · show db_active_count d.alerts asOf ar.region_name = 0
    rw [db_active_count_eq_csv]
    simp [csv_active_count, csv_alerts_agg, hA]
  · show db_total_resources d.resources ar.region_name = 0
    rw [db_total_resources_eq_csv]
    simp [csv_total_resources, csv_res_agg, hR]
  · show db_dist_7d d.distribution_log asOf ar.region_id = 0
    rw [db_dist_7d_eq_csv]
    simp [csv_dist_7d, hD]
  · show db_highest_severity d.alerts asOf ar.region_name = none
    rw [db_highest_severity_eq_csv]
    simp [csv_highest_severity, csv_alerts_agg, hA]

/-- C6 witness: the defaults on region "R2", which has data only for the
other region "R1" in every base table. -/
theorem c6_default_zero_witness :
    (∀ a ∈ (⟨[⟨some 2, "R2", none, none⟩], [⟨some "R1", some "Critical", some 1⟩],
        [⟨some "R1", some 50⟩], [], [⟨some 1, some 30, some (-3)⟩]⟩ :
          Database).alerts,
      a.region ≠ some (⟨some 2, "R2", none, none⟩ : RegionRow).region_name) ∧
    (csvSummaryRow ⟨[⟨some 2, "R2", none, none⟩], [⟨some "R1", some "Critical", some 1⟩],
        [⟨some "R1", some 50⟩], [], [⟨some 1, some 30, some (-3)⟩]⟩ 0
        ⟨some 2, "R2", none, none⟩).active_alerts_count = 0 ∧
    (csvSummaryRow ⟨[⟨some 2, "R2", none, none⟩], [⟨some "R1", some "Critical", some 1⟩],
        [⟨some "R1", some 50⟩], [], [⟨some 1, some 30, some (-3)⟩]⟩ 0
        ⟨some 2, "R2", none, none⟩).highest_active_severity = none ∧
    (dbSummaryRow ⟨[⟨some 2, "R2", none, none⟩], [⟨some "R1", some "Critical", some 1⟩],
        [⟨some "R1", some 50⟩], [], [⟨some 1, some 30, some (-3)⟩]⟩ 0
        ⟨some 2, "R2", none, none⟩).distributions_last_7d = 0 :=
  ⟨by decide,
    (c6_default_zero ⟨[⟨some 2, "R2", none, none⟩], [⟨some "R1", some "Critical", some 1⟩],
        [⟨some "R1", some 50⟩], [], [⟨some 1, some 30, some (-3)⟩]⟩ 0
      ⟨some 2, "R2", none, none⟩ (by decide) (by decide) (by decide)).1,
    (c6_default_zero ⟨[⟨some 2, "R2", none, none⟩], [⟨some "R1", some "Critical", some 1⟩],
        [⟨some "R1", some 50⟩], [], [⟨some 1, some 30, some (-3)⟩]⟩ 0
      ⟨some 2, "R2", none, none⟩ (by decide) (by decide) (by decide)).2.2.2.1,
    (c6_default_zero ⟨[⟨some 2, "R2", none, none⟩], [⟨some "R1", some "Critical", some 1⟩],
        [⟨some "R1", some 50⟩], [], [⟨some 1, some 30, some (-3)⟩]⟩ 0
      ⟨some 2, "R2", none, none⟩ (by decide) (by decide) (by decide)).2.2.2.2.2.2.1⟩

/-- C7 counterexample: the DataFrame's column list differs from §3's
RegionSummary attribute list — it keeps `region_id` and `max_sev_rank`,
places `highest_active_severity` last, and lacks `last_refreshed`. -/
theorem c7_counterexample : mv_dataframe_columns ≠ spec_region_summary_columns := by
  decide

/-- C7 (amended): the DataFrame returned by `refresh_mv_from_csv` (and
the flat file it optionally writes) carries the §3 columns minus
last_refreshed plus the extra working columns region_id and
max_sev_rank, with highest_active_severity in last position; only the
rows inserted into the summary table follow §3's attribute list exactly,
via the INSERT column lists (which match the DDL order). -/
theorem c7_output_columns :
    mv_dataframe_columns =
      ["region_id", "region_name", "population", "risk_level",
       "active_alerts_count", "max_sev_rank", "total_resources_available",
       "distributions_last_7d", "latest_rainfall_mm", "avg_rainfall_7d",
       "highest_active_severity"] ∧
    mv_table_columns = spec_region_summary_columns := by
  constructor
  · decide
  · decide

/-- C8 (confirmed): on both paths a DistributionEvent's quantity_sent is
counted in its region's distributions_last_7d exactly when
date_distributed ≥ asOf − 7; in particular an event dated exactly 7 days
before the reference date is included and one dated 8 days before is
excluded.  Also, membership in the window filter is exactly the
date-window condition. -/
theorem c8_window_boundary (asOf i q t : Int) :
    (csv_dist_7d [⟨some i, some q, some t⟩] asOf (some i) =
      if asOf - 7 ≤ t then q else 0) ∧
    (db_dist_7d [⟨some i, some q, some t⟩] asOf (some i) =
      if asOf - 7 ≤ t then q else 0) ∧
    csv_dist_7d [⟨some i, some q, some (asOf - 7)⟩] asOf (some i) = q ∧
    csv_dist_7d [⟨some i, some q, some (asOf - 8)⟩] asOf (some i) = 0 ∧
    db_dist_7d [⟨some i, some q, some (asOf - 7)⟩] asOf (some i) = q ∧
    db_dist_7d [⟨some i, some q, some (asOf - 8)⟩] asOf (some i) = 0 ∧
    (∀ (dist : List DistRow) (e : DistRow),
      e ∈ csv_dist_window dist asOf ↔
        e ∈ dist ∧ ∃ td, e.date_distributed = some td ∧ asOf - 7 ≤ td) := by
  have hgen : ∀ t' : Int, csv_dist_7d [⟨some i, some q, some t'⟩] asOf (some i) =
      if asOf - 7 ≤ t' then q else 0 := by
    intro t'
    by_cases h : asOf - 7 ≤ t'
    · have h1 : asOf ≤ t' + 7 := by omega
      have h2 : ¬ t' + 7 < asOf := by omega
      simp [csv_dist_7d, csv_dist_agg, csv_dist_window, h, h1, h2]
    · have h1 : ¬ asOf ≤ t' + 7 := by omega
      have h2 : t' + 7 < asOf := by omega
      simp [csv_dist_7d, csv_dist_agg, csv_dist_window, h, h1, h2]
  have hdb : ∀ t' : Int, db_dist_7d [⟨some i, some q, some t'⟩] asOf (some i) =
      csv_dist_7d [⟨some i, some q, some t'⟩] asOf (some i) :=
    fun t' => db_dist_7d_eq_csv _ asOf (some i)
  refine ⟨hgen t, (hdb t).trans (hgen t), ?_, ?_, ?_, ?_, ?_⟩
  · rw [hgen (asOf - 7), if_pos (by omega)]
  · rw [hgen (asOf - 8), if_neg (by omega)]
  · rw [hdb (asOf - 7), hgen (asOf - 7), if_pos (by omega)]
  · rw [hdb (asOf - 8), hgen (asOf - 8), if_neg (by omega)]
  · intro dist e
    rw [csv_dist_window, List.mem_filter]
    cases hd : e.date_distributed with
    | none => simp [hd]
    | some td => simp [hd]

/-- Stripping trailing slashes from a list that is not entirely
slashes leaves a nonempty list. -/
lemma strip_slash_ne_nil (l : List Char)
    (hnall : ¬ (l.all (fun c => decide (c = '/')) = true)) :
    (l.reverse.dropWhile (fun c => decide (c = '/'))).reverse ≠ [] := by
  intro h0
  have h1 : l.reverse.dropWhile (fun c => decide (c = '/')) = [] := by
    simpa using congrArg List.reverse h0
  apply hnall
  rw [List.all_eq_true]
  intro x hx
  have := List.dropWhile_eq_nil_iff.mp h1 x (List.mem_reverse.mpr hx)
  simpa using this

/-- A POSIX path has an empty dirname exactly when it contains no slash
(no directory component). -/
lemma dirname_eq_empty_iff (p : String) :
    os_path_dirname p = "" ↔ '/' ∉ p.data := by
  unfold os_path_dirname
  constructor
  · intro h hm
    have hne : os_path_head p ≠ [] := by
      intro h0
      have h1 : p.data.reverse.dropWhile (fun c => decide (c ≠ '/')) = [] := by
        simpa [os_path_head] using congrArg List.reverse h0
      have := List.dropWhile_eq_nil_iff.mp h1 '/' (List.mem_reverse.mpr hm)
      simp at this
    by_cases hcond : os_path_head p ≠ [] ∧
        ¬ ((os_path_head p).all (fun c => decide (c = '/')) = true)
    · rw [if_pos hcond] at h
      have hstr : (((os_path_head p).reverse.dropWhile (fun c => decide (c = '/'))).reverse :
          List Char) = [] := by
        simpa using congrArg String.data h
      exact strip_slash_ne_nil _ hcond.2 hstr
    · rw [if_neg hcond] at h
      have hdata : os_path_head p = [] := by
        simpa using congrArg String.data h
      exact hne hdata
  · intro hm
    have h0 : p.data.reverse.dropWhile (fun c => decide (c ≠ '/')) = [] := by
      apply List.dropWhile_eq_nil_iff.mpr
      intro x hx
      simp only [decide_eq_true_eq]
      intro hx2
      exact hm (by rw [← hx2] ; exact List.mem_reverse.mp hx)
    have hh : os_path_head p = [] := by
      unfold os_path_head
      rw [h0]
      rfl
    rw [hh]
    simp

/-- C10 (confirmed): `refresh_mv_from_csv` with an output path raises
`FileNotFoundError` exactly when `os.path.dirname` of the path is empty
— i.e. exactly when the path has no directory component (no slash) —
because `os.makedirs("")` fails even with exist_ok; with a directory
component the write proceeds and the computed rows are returned.  In
particular a bare filename "out.csv" aborts the call after the rows were
computed, while "csv_sheets/out.csv" succeeds. -/
theorem c10_bare_output_path (dir : CsvDir) (conn : Option DbConn) (st : MVStore)
    (asOf : Int) (p : String) :
    ((refresh_mv_from_csv dir (some p) conn st asOf).1 =
        Except.error "FileNotFoundError" ↔ os_path_dirname p = "") ∧
    (os_path_dirname p = "" ↔ '/' ∉ p.data) ∧
    os_path_dirname "out.csv" = "" ∧
    os_path_dirname "csv_sheets/out.csv" = "csv_sheets" ∧
    (refresh_mv_from_csv dir (some "out.csv") conn st asOf).1 =
      Except.error "FileNotFoundError" ∧
    (refresh_mv_from_csv dir (some "csv_sheets/out.csv") conn st asOf).1 =
      Except.ok (refresh_mv_from_csv_rows dir.read asOf) := by
  have hiff : ∀ q : String, ((refresh_mv_from_csv dir (some q) conn st asOf).1 =
      Except.error "FileNotFoundError" ↔ os_path_dirname q = "") := by
    intro q
    cases conn with
    | none => by_cases h : os_path_dirname q = "" <;>
        simp [refresh_mv_from_csv, os_makedirs, h]
    | some c => by_cases h : os_path_dirname q = "" <;>
        simp [refresh_mv_from_csv, os_makedirs, h]
  have hbare : os_path_dirname "out.csv" = "" := by decide
  have hdir : os_path_dirname "csv_sheets/out.csv" = "csv_sheets" := by decide
  refine ⟨hiff p, dirname_eq_empty_iff p, hbare, hdir, (hiff "out.csv").mpr hbare, ?_⟩
  cases conn with
  | none => simp [refresh_mv_from_csv, os_makedirs, hdir]
  | some c => simp [refresh_mv_from_csv, os_makedirs, hdir]

/-- C9 (confirmed): for a region with readings on days −10, −5, −1
relative to the reference date carrying 10, 20, 30 mm, both paths give
avg_rainfall_7d = 25 (the −10-day reading is outside the window) and
latest_rainfall_mm = 30 (the maximal-date reading); and a region none of
whose readings fall inside the window gets a null average, not zero. -/
theorem c9_rainfall_averaging (asOf : Int) (name : String) (rain : List RainRow) :
    (csv_avg_7d [⟨some name, some (asOf - 10), some 10⟩,
        ⟨some name, some (asOf - 5), some 20⟩,
        ⟨some name, some (asOf - 1), some 30⟩] asOf name = some 25 ∧
     db_avg_7d [⟨some name, some (asOf - 10), some 10⟩,
        ⟨some name, some (asOf - 5), some 20⟩,
        ⟨some name, some (asOf - 1), some 30⟩] asOf name = some 25 ∧
     csv_latest_mm [⟨some name, some (asOf - 10), some 10⟩,
        ⟨some name, some (asOf - 5), some 20⟩,
        ⟨some name, some (asOf - 1), some 30⟩] name = some 30 ∧
     db_latest_mm [⟨some name, some (asOf - 10), some 10⟩,
        ⟨some name, some (asOf - 5), some 20⟩,
        ⟨some name, some (asOf - 1), some 30⟩] name = some 30) ∧
    ((∀ r ∈ rain, r.region = some name → ∀ dte, r.date = some dte → dte < asOf - 7) →
      csv_avg_7d rain asOf name = none ∧ db_avg_7d rain asOf name = none) := by
  have hw10 : ¬ (asOf - 7 ≤ asOf - 10) := by omega
  have hw10' : ¬ (asOf ≤ asOf - 10 + 7) := by omega
  have hw5 : asOf - 7 ≤ asOf - 5 := by omega
  have hw5' : asOf ≤ asOf - 5 + 7 := by omega
  have hw1 : asOf - 7 ≤ asOf - 1 := by omega
  have hw1' : asOf ≤ asOf - 1 + 7 := by omega
  have hd1 : asOf - 10 ≤ asOf - 5 := by omega
  have hd2 : ¬ (asOf - 5 ≤ asOf - 10) := by omega
  have hd3 : asOf - 5 ≤ asOf - 1 := by omega
  have hd4 : ¬ (asOf - 1 ≤ asOf - 5) := by omega
  have havg : csv_avg_7d [⟨some name, some (asOf - 10), some 10⟩,
      ⟨some name, some (asOf - 5), some 20⟩,
      ⟨some name, some (asOf - 1), some 30⟩] asOf name = some 25 := by
    simp [csv_avg_7d, csv_rain_window, hw10, hw10', hw5, hw5', hw1, hw1']
    norm_num
  have hlat : csv_latest_mm [⟨some name, some (asOf - 10), some 10⟩,
      ⟨some name, some (asOf - 5), some 20⟩,
      ⟨some name, some (asOf - 1), some 30⟩] name = some 30 := by
    simp [csv_latest_mm, firstMaxByDate, dateLE, hd1, hd2, hd3, hd4]
  have hmm : ∀ r ∈ ([⟨some name, some (asOf - 10), some 10⟩,
      ⟨some name, some (asOf - 5), some 20⟩,
      ⟨some name, some (asOf - 1), some 30⟩] : List RainRow), r.rainfall_mm ≠ none := by
    intro r hr
    simp only [List.mem_cons, List.mem_singleton, List.not_mem_nil, or_false] at hr
    rcases hr with rfl | rfl | rfl <;> simp
  refine ⟨⟨havg, (db_avg_7d_eq_csv _ asOf name).trans havg,
    hlat, (db_latest_mm_eq_csv _ name hmm).trans hlat⟩, ?_⟩
  intro hout
  have hmid : (csv_rain_window rain asOf).filter
      (fun r => decide (r.region = some name)) = [] := by
    apply List.filter_eq_nil_iff.mpr
    intro r hr
    simp only [csv_rain_window, List.mem_filter] at hr
    obtain ⟨hrm, hw⟩ := hr
    simp only [decide_eq_true_eq]
    intro hreg
    cases hd : r.date with
    | none => rw [hd] at hw; simp at hw
    | some dte =>
      rw [hd] at hw
      simp only [decide_eq_true_eq] at hw
      exact absurd hw (not_le.mpr (hout r hrm hreg dte hd))
  have hcsvnone : csv_avg_7d rain asOf name = none := by
    unfold csv_avg_7d
    rw [hmid]
    rfl
  exact ⟨hcsvnone, (db_avg_7d_eq_csv _ asOf name).trans hcsvnone⟩

/-- C9 witness: the concrete-part conclusions at asOf = 0 and one
all-out-of-window reading list discharging the null-average premise. -/
theorem c9_rainfall_averaging_witness :
    (∀ r ∈ ([⟨some "R1", some (-9), some 4⟩] : List RainRow),
      r.region = some "R1" → ∀ dte, r.date = some dte → dte < 0 - 7) ∧
    csv_avg_7d [⟨some "R1", some (0 - 10), some 10⟩, ⟨some "R1", some (0 - 5), some 20⟩,
      ⟨some "R1", some (0 - 1), some 30⟩] 0 "R1" = some 25 ∧
    csv_latest_mm [⟨some "R1", some (0 - 10), some 10⟩, ⟨some "R1", some (0 - 5), some 20⟩,
      ⟨some "R1", some (0 - 1), some 30⟩] "R1" = some 30 ∧
    csv_avg_7d [⟨some "R1", some (-9), some 4⟩] 0 "R1" = none :=
  ⟨by decide,
    (c9_rainfall_averaging 0 "R1" [⟨some "R1", some (-9), some 4⟩]).1.1,
    (c9_rainfall_averaging 0 "R1" [⟨some "R1", some (-9), some 4⟩]).1.2.2.1,
    ((c9_rainfall_averaging 0 "R1" [⟨some "R1", some (-9), some 4⟩]).2 (by decide)).1⟩
